import Mathlib

/-!
Verification of the SOAR platform specification against the repository code.

The repository under verification ships the dashboard frontend (React pages
and an axios API client).  The Playbook Execution Engine, Trigger Evaluator,
Escalation Coordinator and Statistics Aggregator described by the design
document are not present in the source tree; where a claim is decided by that
missing backend, the corresponding definitions are modelled from the
specification text and carry a doc comment starting with "Modelled from the
spec:".  All other definitions are direct shallow embeddings of the
JavaScript source files (services/api.js, pages/Dashboard.jsx, the Alerts
page and the Playbooks page).
-/

/-! ## Generic list helper: initial-segment predicate -/

/-- `initSeg l₁ l₂` holds when `l₁` is an initial segment (prefix) of `l₂`. -/
def initSeg {α : Type} (l₁ l₂ : List α) : Prop :=
  l₂.take l₁.length = l₁

/-! ## Data model (spec §3), shared by the modelled backend -/

/-- Modelled from the spec: alert severity, an ordered enum
low < medium < high < critical (spec §3, Alert).  The backend owning this
type is not in the source tree. -/
inductive Severity where
  | low
  | medium
  | high
  | critical
deriving DecidableEq, Repr

/-- Modelled from the spec: the rank realising the total order
low < medium < high < critical used by severity comparisons (spec §4.1). -/
def Severity.rank : Severity → Nat
  | .low => 0
  | .medium => 1
  | .high => 2
  | .critical => 3

/-- Modelled from the spec: alert status enum (open, investigating, resolved),
spec §3.  The backend owning this type is not in the source tree. -/
inductive AlertStatus where
  | open_
  | investigating
  | resolved
deriving DecidableEq, Repr

/-- Modelled from the spec: scalar values of the free-form attribute map of an
alert (spec §3, Alert: "free-form attribute map (key→scalar)"). -/
inductive Scalar where
  | str (s : String)
  | num (n : Int)
  | boolean (b : Bool)
deriving DecidableEq, BEq, Repr

/-- Modelled from the spec: the Alert record (spec §3).  Timestamps are kept
as strings; they play no role in any claim. -/
structure Alert where
  id : Nat
  title : String
  severity : Severity
  status : AlertStatus
  source : String
  attributes : List (String × Scalar)
deriving DecidableEq, Repr

/-! ## Trigger Evaluator (spec §4.1, §9) — modelled from the spec -/

/-- Modelled from the spec: trigger conditions as a closed tagged-variant
boolean expression tree over alert fields and the attribute map (spec §3
TriggerCondition and §9: Predicate with equals, in-set, gte/lte for severity,
combined by and/or/not).  The evaluator owning this type is not in the
source tree. -/
inductive TriggerCondition where
  | equalsAttr (key : String) (v : Scalar)
  | inSet (key : String) (vs : List Scalar)
  | sevGte (s : Severity)
  | sevLte (s : Severity)
  | and (a b : TriggerCondition)
  | or (a b : TriggerCondition)
  | not (a : TriggerCondition)
deriving DecidableEq, Repr

/-- Modelled from the spec: attribute lookup on an alert; an unknown
attribute reference yields `none`, which every predicate treats as
"not satisfied" (spec §4.1). -/
def lookupAttr (a : Alert) (k : String) : Option Scalar :=
  (a.attributes.find? (fun kv => kv.1 == k)).map (fun kv => kv.2)

/-- Modelled from the spec: `evaluate(alert, condition) -> bool`, the Trigger
Evaluator contract (spec §4.1): a pure recursive interpretation of the
condition tree; unknown attributes evaluate to false, severity comparisons
use the total order low<medium<high<critical.  The evaluator is not in the
source tree. -/
def evaluate (a : Alert) : TriggerCondition → Bool
  | .equalsAttr k v =>
    match lookupAttr a k with
    | some w => w == v
    | none => false
  | .inSet k vs =>
    match lookupAttr a k with
    | some w => vs.contains w
    | none => false
  | .sevGte s => decide (s.rank ≤ a.severity.rank)
  | .sevLte s => decide (a.severity.rank ≤ s.rank)
  | .and x y => evaluate a x && evaluate a y
  | .or x y => evaluate a x || evaluate a y
  | .not x => !(evaluate a x)

/-- Modelled from the spec: evaluation of a trigger condition in the presence
of an ambient engine state of any type `σ`.  The spec (§4.1) requires
`evaluate` to be side-effect-free, so the state component is returned
untouched and the boolean is a function of the alert and condition alone. -/
def evaluateIn {σ : Type} (st : σ) (a : Alert) (c : TriggerCondition) : Bool × σ :=
  (evaluate a c, st)

/-! ## Execution Engine data (spec §3, §4.2) — modelled from the spec -/

/-- Modelled from the spec: run states of the Execution Engine state machine
Pending → Running → (Completed, Failed, Cancelled) (spec §4.2). -/
inductive RunState where
  | Pending
  | Running
  | Completed
  | Failed
  | Cancelled
deriving DecidableEq, Repr

/-- Modelled from the spec: a run is active while it is Pending or Running
(spec §5, admission policy). -/
def RunState.isActive : RunState → Bool
  | .Pending => true
  | .Running => true
  | _ => false

/-- Modelled from the spec: StepResult outcomes (spec §3). -/
inductive Outcome where
  | Success
  | Failed
  | Skipped
  | TimedOut
deriving DecidableEq, Repr

/-- Modelled from the spec: an outcome counts towards run completion when it
is Success or Skipped (spec §4.2: "A run reaches Completed only if every
step reports Success or Skipped"). -/
def Outcome.isPass : Outcome → Bool
  | .Success => true
  | .Skipped => true
  | _ => false

/-- Modelled from the spec: a playbook step with its fixed order index,
action kind and retry count (spec §3, Step). -/
structure Step where
  index : Nat
  action : String
  retryCount : Nat
deriving DecidableEq, Repr

/-- Modelled from the spec: the StepResult record (spec §3): step index,
outcome and attempt count. -/
structure StepResult where
  stepIndex : Nat
  outcome : Outcome
  attempts : Nat
deriving DecidableEq, Repr

/-- Modelled from the spec: the Playbook record (spec §3): identity, enabled
flag, trigger condition and ordered step sequence. -/
structure Playbook where
  id : Nat
  enabled : Bool
  trigger : TriggerCondition
  steps : List Step
deriving DecidableEq, Repr

/-- Modelled from the spec: the ExecutionRun record (spec §3): identity,
playbook id, alert id, state and ordered StepResult list. -/
structure ExecutionRun where
  runId : Nat
  playbookId : Nat
  alertId : Nat
  state : RunState
  results : List StepResult
deriving DecidableEq, Repr

/-! ## Execution Engine operations (spec §4.2, §5) — modelled from the spec -/

/-- Modelled from the spec: the engine-owned collection of runs together with
the next fresh run identity (spec §3 and §6, ExecutionRun table). -/
structure EngineState where
  runs : List ExecutionRun
  nextId : Nat
deriving DecidableEq, Repr

/-- Modelled from the spec: whether a run occupies the keyed admission slot
of the pair `(pid, aid)` — same playbook, same alert, active state
(spec §5). -/
def activePairB (pid aid : Nat) (r : ExecutionRun) : Bool :=
  decide (r.playbookId = pid) && decide (r.alertId = aid) && r.state.isActive

/-- Modelled from the spec: does some active run for `(pid, aid)` exist
(spec §5, keyed admission lock)? -/
def hasActiveRun (st : EngineState) (pid aid : Nat) : Bool :=
  st.runs.any (activePairB pid aid)

/-- Modelled from the spec: number of active runs for the pair `(pid, aid)` —
the quantity the admission invariant bounds by one (spec §5, §8). -/
def countActive (st : EngineState) (pid aid : Nat) : Nat :=
  st.runs.countP (activePairB pid aid)

/-- Modelled from the spec: run admission (spec §5): a request to start a run
for `(pid, aid)` is coalesced — no run is created — while an active run for
the same pair exists; otherwise a fresh Pending run is created. -/
def requestRun (st : EngineState) (pid aid : Nat) : EngineState :=
  if hasActiveRun st pid aid then st
  else
    { runs := { runId := st.nextId, playbookId := pid, alertId := aid,
                state := RunState.Pending, results := [] } :: st.runs,
      nextId := st.nextId + 1 }

/-- Modelled from the spec: manual execution via POST /playbooks/(id)/execute
bypasses the Trigger Evaluator but goes through the very same admission rule
(spec §6). -/
def manualExecute (st : EngineState) (pid aid : Nat) : EngineState :=
  requestRun st pid aid

/-- Modelled from the spec: point update of the run with identity `rid`
inside the engine state; all other runs are untouched. -/
def updateRun (st : EngineState) (rid : Nat) (f : ExecutionRun → ExecutionRun) : EngineState :=
  { st with runs := st.runs.map (fun r => if r.runId == rid then f r else r) }

/-- Modelled from the spec: the Pending → Running transition at admission
(spec §4.2). -/
def startRun (st : EngineState) (rid : Nat) : EngineState :=
  updateRun st rid (fun r =>
    if r.state == RunState.Pending then { r with state := RunState.Running } else r)

/-- Modelled from the spec: the Running → Completed / Failed transition at
the end of a run (spec §4.2). -/
def finishRun (st : EngineState) (rid : Nat) (ok : Bool) : EngineState :=
  updateRun st rid (fun r =>
    if r.state == RunState.Running then
      { r with state := if ok then RunState.Completed else RunState.Failed }
    else r)

/-- Modelled from the spec: request-scoped cancellation of one run id; an
active run becomes Cancelled, a terminal run is left untouched (spec §5). -/
def cancelRunAt (st : EngineState) (rid : Nat) : EngineState :=
  updateRun st rid (fun r =>
    if r.state.isActive then { r with state := RunState.Cancelled } else r)

/-- Modelled from the spec: the engine states reachable from the empty state
by admission (trigger or manual), start, finish and cancel transitions —
"every instant" of the engine lifetime (spec §5). -/
inductive Reachable : EngineState → Prop where
  | init : Reachable { runs := [], nextId := 0 }
  | request {st} (pid aid : Nat) : Reachable st → Reachable (requestRun st pid aid)
  | start {st} (rid : Nat) : Reachable st → Reachable (startRun st rid)
  | finish {st} (rid : Nat) (ok : Bool) : Reachable st → Reachable (finishRun st rid ok)
  | cancel {st} (rid : Nat) : Reachable st → Reachable (cancelRunAt st rid)

/-! ## Step execution and the run loop (spec §4.2, §4.3) — modelled -/

/-- Modelled from the spec: the retry loop of one step (spec §4.2).  The
external Step Executor is abstracted as an oracle `exec` giving the outcome
of each (step index, attempt number) invocation; the loop stops at the first
Success or Skipped outcome, retries otherwise, runs at most `budget`
retries after the first attempt, and reports the final outcome together
with the number of attempts made — only the final outcome is
authoritative. -/
def attemptsLoop (exec : Nat → Nat → Outcome) (idx : Nat) : Nat → Nat → Outcome × Nat
  | attempt, 0 => (exec idx attempt, attempt + 1)
  | attempt, budget + 1 =>
    if (exec idx attempt).isPass then (exec idx attempt, attempt + 1)
    else attemptsLoop exec idx (attempt + 1) budget

/-- Modelled from the spec: the engine step loop (spec §4.2): steps run
strictly in list order; a step whose final outcome is not a pass halts the
run and no later step executes.  Returns the StepResult list and whether
every executed step passed. -/
def execSteps (exec : Nat → Nat → Outcome) : List Step → List StepResult × Bool
  | [] => ([], true)
  | s :: rest =>
    let r := attemptsLoop exec s.index 0 s.retryCount
    if r.1.isPass then
      ({ stepIndex := s.index, outcome := r.1, attempts := r.2 } :: (execSteps exec rest).1,
       (execSteps exec rest).2)
    else
      ([{ stepIndex := s.index, outcome := r.1, attempts := r.2 }], false)

/-- Modelled from the spec: a full playbook run (spec §4.2): the steps are
executed in order and the run ends Completed when every step passed,
Failed otherwise. -/
def executeRun (exec : Nat → Nat → Outcome) (p : Playbook) (r : ExecutionRun) : ExecutionRun :=
  { r with
    state := if (execSteps exec p.steps).2 then RunState.Completed else RunState.Failed,
    results := (execSteps exec p.steps).1 }

/-- Modelled from the spec: cancellation of a single run (spec §4.2, §5):
cancelling a Pending or Running run yields state Cancelled with every
remaining (unexecuted) step of the playbook recorded as Skipped; cancelling
a run already in a terminal state returns it unchanged.  The operation is
total — a no-op, never an error. -/
def cancelRun (p : Playbook) (r : ExecutionRun) : ExecutionRun :=
  if r.state = RunState.Pending ∨ r.state = RunState.Running then
    { r with
      state := RunState.Cancelled,
      results := r.results ++ (p.steps.drop r.results.length).map
        (fun s => { stepIndex := s.index, outcome := Outcome.Skipped, attempts := 0 }) }
  else r

/-! ## Statistics Aggregator (spec §3 StatSnapshot, §4.5) — modelled -/

/-- Modelled from the spec: counts by severity in a StatSnapshot (spec §3).
The aggregator is not in the source tree; the field layout follows the JSON
shape the Dashboard consumes (pages/Dashboard.jsx). -/
structure SeverityCounts where
  critical : Nat
  high : Nat
  medium : Nat
  low : Nat
deriving DecidableEq, Repr

/-- Modelled from the spec: counts by status in a StatSnapshot (spec §3). -/
structure StatusCounts where
  open_ : Nat
  investigating : Nat
  resolved : Nat
deriving DecidableEq, Repr

/-- Modelled from the spec: the StatSnapshot record (spec §3): counts by
severity, counts by status, total and active-incident count. -/
structure StatSnapshot where
  total_alerts : Nat
  by_severity : SeverityCounts
  by_status : StatusCounts
  active_incidents : Nat
deriving DecidableEq, Repr

/-- Modelled from the spec: the recount of the Statistics Aggregator
(spec §4.5): every counter of a StatSnapshot derived by a full pass over the
Alert set; active incidents are the alerts with status other than resolved
(spec §3). -/
def computeStats (alerts : List Alert) : StatSnapshot :=
  { total_alerts := alerts.length,
    by_severity :=
      { critical := alerts.countP (fun a => decide (a.severity = Severity.critical)),
        high := alerts.countP (fun a => decide (a.severity = Severity.high)),
        medium := alerts.countP (fun a => decide (a.severity = Severity.medium)),
        low := alerts.countP (fun a => decide (a.severity = Severity.low)) },
    by_status :=
      { open_ := alerts.countP (fun a => decide (a.status = AlertStatus.open_)),
        investigating := alerts.countP (fun a => decide (a.status = AlertStatus.investigating)),
        resolved := alerts.countP (fun a => decide (a.status = AlertStatus.resolved)) },
    active_incidents := alerts.countP (fun a => !(decide (a.status = AlertStatus.resolved))) }

/-! ## The dashboard API client (src/frontend/src/services/api.js) -/

/-- An HTTP request as issued by the axios client: verb, full path (base URL
prepended, as axios does with `baseURL`) and query parameters. -/
structure Request where
  method : String
  path : String
  params : List (String × String)
deriving DecidableEq, BEq, Repr

/-- The base URL of the axios instance (api.js line 4). -/
def baseURL : String := "/api/v1"

/-- A request against the axios instance: the path is resolved under the
base URL. -/
def apiRequest (method path : String) (params : List (String × String)) : Request :=
  { method := method, path := baseURL ++ path, params := params }

namespace alertService

/-- api.js line 20: `getStats: () => api.get('/alerts/statistics')`. -/
def getStats : Request := apiRequest "GET" "/alerts/statistics" []

/-- api.js line 21: `getAlerts: (params) => api.get('/alerts', { params })`. -/
def getAlerts (params : List (String × String)) : Request :=
  apiRequest "GET" "/alerts" params

/-- api.js line 22: `getAlert: (id) => api.get('/alerts/' + id)`. -/
def getAlert (id : String) : Request := apiRequest "GET" ("/alerts/" ++ id) []

/-- api.js line 23: `createAlert: (data) => api.post('/alerts', data)`. -/
def createAlert : Request := apiRequest "POST" "/alerts" []

/-- api.js line 24: `updateAlert: (id, data) => api.put('/alerts/' + id, data)`. -/
def updateAlert (id : String) : Request := apiRequest "PUT" ("/alerts/" ++ id) []

end alertService

namespace playbookService

/-- api.js line 28: `getPlaybooks: () => api.get('/playbooks')`. -/
def getPlaybooks : Request := apiRequest "GET" "/playbooks" []

/-- api.js line 29: `getPlaybook: (id) => api.get('/playbooks/' + id)`. -/
def getPlaybook (id : String) : Request := apiRequest "GET" ("/playbooks/" ++ id) []

/-- api.js line 30: `runPlaybook: (id) => api.post('/playbooks/' + id + '/execute')`. -/
def runPlaybook (id : String) : Request :=
  apiRequest "POST" ("/playbooks/" ++ id ++ "/execute") []

end playbookService

/-- The complete surface of the API client (api.js): every request any page
can issue through `alertService` or `playbookService`, at a given id and
filter-parameter list. -/
def clientRequests (id : String) (params : List (String × String)) : List Request :=
  [alertService.getStats, alertService.getAlerts params, alertService.getAlert id,
   alertService.createAlert, alertService.updateAlert id,
   playbookService.getPlaybooks, playbookService.getPlaybook id,
   playbookService.runPlaybook id]

/-! ## The Alerts page (src/unnamed/part_000) -/

/-- An alert row as the Alerts page consumes it (fields used by the table and
by the hard-coded mock data). -/
structure AlertRow where
  id : Nat
  title : String
  severity : String
  status : String
  source : String
  created_at : String
deriving DecidableEq, Repr

/-- The three hard-coded mock alerts of the Alerts page catch branch
(part_000 lines 19-23). -/
def mockAlerts : List AlertRow :=
  [{ id := 1, title := "Suspicious Login Attempt", severity := "high", status := "open",
     source := "Auth Service", created_at := "2023-10-27T10:30:00Z" },
   { id := 2, title := "Port Scan Detected", severity := "medium", status := "investigating",
     source := "Firewall", created_at := "2023-10-27T09:15:00Z" },
   { id := 3, title := "Malware Signature Match", severity := "critical", status := "open",
     source := "EDR", created_at := "2023-10-27T08:45:00Z" }]

/-- The body of a successful GET /alerts response; the `alerts` array may be
absent (`response.data.alerts` may be undefined). -/
structure AlertsResponse where
  alerts : Option (List AlertRow)
deriving DecidableEq, Repr

/-- The component state the Alerts page fetch effect produces. -/
structure AlertsPageState where
  alerts : List AlertRow
  loading : Bool
deriving DecidableEq, Repr

/-- The `fetchAlerts` handler of the Alerts page (part_000 lines 12-27): on
success the alerts state is `response.data.alerts || []`; on any error the
three mock alerts are installed instead and no exception escapes; in both
branches the finally clause clears the loading flag.  Totality of this
function is the embedded form of "no exception escapes the handler". -/
def fetchAlerts : Except String AlertsResponse → AlertsPageState
  | Except.ok resp => { alerts := resp.alerts.getD [], loading := false }
  | Except.error _ => { alerts := mockAlerts, loading := false }

/-- Modelled from the ECMAScript toLowerCase builtin that getSeverityColor
calls: the Unicode simple lowercase mapping, per character.  The model maps
the ASCII letters exactly as JavaScript does; the only non-ASCII character
any theorem below touches, U+0131 (dotless i), is already lowercase and is
left unchanged, exactly as JavaScript leaves it, so on every string these
theorems mention — and on all ASCII strings — the model agrees with the
builtin.  Other non-ASCII characters are left unchanged and are nowhere
relied upon. -/
def jsCharToLower (c : Char) : Char :=
  if c.toNat ≥ 65 ∧ c.toNat ≤ 90 then Char.ofNat (c.toNat + 32) else c

/-- Modelled from the ECMAScript toUpperCase builtin named by the claim: the
Unicode simple uppercase mapping, per character.  The ASCII letters map
exactly as in JavaScript, and U+0131 (dotless i) maps to the capital letter
I, as in the Unicode case table JavaScript implements; other non-ASCII
characters do not occur in the theorems below and are left unchanged. -/
def jsCharToUpper (c : Char) : Char :=
  if c.toNat ≥ 97 ∧ c.toNat ≤ 122 then Char.ofNat (c.toNat - 32)
  else if c = 'ı' then 'I'
  else c

/-- `toLowerCase` on a string: the per-character simple mapping. -/
def jsToLower (s : String) : String := String.mk (s.data.map jsCharToLower)

/-- `toUpperCase` on a string: the per-character simple mapping. -/
def jsToUpper (s : String) : String := String.mk (s.data.map jsCharToUpper)

/-- `getSeverityColor` of the Alerts page (part_000 lines 32-39): a switch on
`severity.toLowerCase()` with a shared blue default.  The JavaScript function
presupposes a non-null string argument, since `toLowerCase` is called
unconditionally; the embedding is total over `String`. -/
def getSeverityColor (severity : String) : String :=
  if jsToLower severity = "critical" then "text-danger bg-danger/10 border-danger/20"
  else if jsToLower severity = "high" then "text-orange-400 bg-orange-400/10 border-orange-400/20"
  else if jsToLower severity = "medium" then "text-warning bg-warning/10 border-warning/20"
  else "text-blue-400 bg-blue-400/10 border-blue-400/20"

/-! ## The Playbooks page (src/unnamed/part_001) -/

/-- A playbook card as the Playbooks page consumes it. -/
structure PlaybookRow where
  id : Nat
  name : String
  active : Bool
deriving DecidableEq, Repr

/-- The body of a successful GET /playbooks response; the `playbooks` array
may be absent. -/
structure PlaybooksResponse where
  playbooks : Option (List PlaybookRow)
deriving DecidableEq, Repr

/-- The component state the Playbooks page fetch effect produces. -/
structure PlaybooksPageState where
  playbooks : List PlaybookRow
  loading : Bool
deriving DecidableEq, Repr

/-- The `fetchPlaybooks` handler of the Playbooks page (part_001 lines
12-22): on success the playbooks state is `response.data.playbooks || []`;
on error the state keeps its previous value `initial` (the catch branch only
logs); the finally clause clears the loading flag either way. -/
def fetchPlaybooks (initial : List PlaybookRow) :
    Except String PlaybooksResponse → PlaybooksPageState
  | Except.ok resp => { playbooks := resp.playbooks.getD [], loading := false }
  | Except.error _ => { playbooks := initial, loading := false }

/-! ## The Dashboard page (src/frontend/src/pages/Dashboard.jsx) -/

/-- Counts by severity as the Dashboard reads them; every field may be
absent. -/
structure SeverityCountsResp where
  critical : Option Nat
  high : Option Nat
  medium : Option Nat
  low : Option Nat
deriving DecidableEq, Repr

/-- Counts by status as the Dashboard reads them; every field may be
absent. -/
structure StatusCountsResp where
  open_ : Option Nat
  investigating : Option Nat
  resolved : Option Nat
deriving DecidableEq, Repr

/-- The body of a GET /alerts/statistics response as the Dashboard reads it;
every field may be absent (the page guards each access with optional
chaining and `|| 0`). -/
structure StatsResp where
  total_alerts : Option Nat
  by_severity : Option SeverityCountsResp
  by_status : Option StatusCountsResp
  active_incidents : Option Nat
deriving DecidableEq, Repr

/-- The hard-coded fallback snapshot of the Dashboard catch branch
(Dashboard.jsx lines 42-47): 124 total alerts, severities 12/28/45/39,
statuses 42/15/67, 3 active incidents. -/
def fallbackStats : StatsResp :=
  { total_alerts := some 124,
    by_severity := some { critical := some 12, high := some 28, medium := some 45, low := some 39 },
    by_status := some { open_ := some 42, investigating := some 15, resolved := some 67 },
    active_incidents := some 3 }

/-- The component state the Dashboard fetch effect produces. -/
structure DashboardState where
  stats : Option StatsResp
  loading : Bool
deriving DecidableEq, Repr

/-- The `fetchStats` handler of the Dashboard (Dashboard.jsx lines 35-51): on
success the response body is installed; on any error the hard-coded fallback
snapshot is installed and no exception escapes; the finally clause clears
the loading flag in both branches. -/
def fetchStats : Except String StatsResp → DashboardState
  | Except.ok resp => { stats := some resp, loading := false }
  | Except.error _ => { stats := some fallbackStats, loading := false }

/-- `x || 0` on an optional numeric field, as the Dashboard renders
counters. -/
def orZero (o : Option Nat) : Nat := o.getD 0

/-- The Total Alerts StatCard value: `stats?.total_alerts || 0`
(Dashboard.jsx line 76). -/
def displayedTotal (st : Option StatsResp) : Nat :=
  orZero (st.bind StatsResp.total_alerts)

/-- The Critical Threats StatCard value: `stats?.by_severity?.critical || 0`
(Dashboard.jsx line 83). -/
def displayedCritical (st : Option StatsResp) : Nat :=
  orZero ((st.bind StatsResp.by_severity).bind SeverityCountsResp.critical)

/-- The Active Incidents StatCard value: `stats?.active_incidents || 0`
(Dashboard.jsx line 90). -/
def displayedActive (st : Option StatsResp) : Nat :=
  orZero (st.bind StatsResp.active_incidents)

/-- The Resolved Today StatCard value: `stats?.by_status?.resolved || 0`
(Dashboard.jsx line 97). -/
def displayedResolved (st : Option StatsResp) : Nat :=
  orZero ((st.bind StatsResp.by_status).bind StatusCountsResp.resolved)

/-! ## Helper lemmas: initial segments -/

theorem initSeg_nil {α : Type} (l : List α) : initSeg [] l := by
  simp [initSeg]

theorem initSeg_refl {α : Type} (l : List α) : initSeg l l := by
  simp [initSeg]

theorem initSeg_cons {α : Type} {l₁ l₂ : List α} (a : α) (h : initSeg l₁ l₂) :
    initSeg (a :: l₁) (a :: l₂) := by
  simp only [initSeg, List.length_cons, List.take_succ_cons] at h ⊢
  rw [h]

theorem initSeg_length_le {α : Type} {l₁ l₂ : List α} (h : initSeg l₁ l₂) :
    l₁.length ≤ l₂.length := by
  have hl := congrArg List.length h
  simp only [List.length_take] at hl
  omega

theorem initSeg_trans {α : Type} {l₁ l₂ l₃ : List α}
    (h₁ : initSeg l₁ l₂) (h₂ : initSeg l₂ l₃) : initSeg l₁ l₃ := by
  have hle := initSeg_length_le h₁
  unfold initSeg at h₁ h₂ ⊢
  calc l₃.take l₁.length
      = (l₃.take l₂.length).take l₁.length := by
        rw [List.take_take, Nat.min_eq_left hle]
    _ = l₂.take l₁.length := by rw [h₂]
    _ = l₁ := h₁

theorem initSeg_map {α β : Type} (f : α → β) {l₁ l₂ : List α} (h : initSeg l₁ l₂) :
    initSeg (l₁.map f) (l₂.map f) := by
  unfold initSeg at h ⊢
  rw [List.length_map, ← List.map_take, h]

theorem initSeg_take {α : Type} (j : Nat) (l : List α) : initSeg (l.take j) l := by
  unfold initSeg
  rw [List.length_take]
  rcases Nat.le_total j l.length with h | h
  · rw [Nat.min_eq_left h]
  · rw [Nat.min_eq_right h, List.take_length, List.take_of_length_le h]

theorem initSeg_append {α : Type} (l₁ l₂ : List α) : initSeg l₁ (l₁ ++ l₂) := by
  unfold initSeg
  exact List.take_left l₁ l₂

/-! ## Helper lemmas: counting -/

theorem length_countP_split {α : Type} (p : α → Bool) :
    (l : List α) → l.length = l.countP p + l.countP (fun a => !(p a))
  | [] => by simp
  | a :: l => by
    by_cases h : p a <;>
      simp [List.countP_cons, h, length_countP_split p l] <;> omega

theorem countP_eq_zero_of_any_false {α : Type} {p : α → Bool} {l : List α}
    (h : l.any p = false) : l.countP p = 0 := by
  rw [List.countP_eq_zero]
  intro a ha
  simp only [List.any_eq_false] at h
  simp [h a ha]

/-! ## Helper lemmas: ranges of step indices -/

theorem take_range_one : ∀ (n k s : Nat), (List.range' s n).take k = List.range' s (min k n)
  | 0, k, s => by simp
  | n + 1, 0, s => by simp
  | n + 1, k + 1, s => by
    rw [List.range'_succ, List.take_succ_cons, take_range_one n k (s + 1),
      Nat.succ_min_succ, List.range'_succ]

theorem drop_range_one : ∀ (n k s : Nat), (List.range' s n).drop k = List.range' (s + k) (n - k)
  | 0, k, s => by simp
  | n + 1, 0, s => by simp
  | n + 1, k + 1, s => by
    rw [List.range'_succ, List.drop_succ_cons, drop_range_one n k (s + 1)]
    have h1 : s + 1 + k = s + (k + 1) := by omega
    have h2 : n - k = n + 1 - (k + 1) := by omega
    rw [h1, h2]

/-! ## Helper lemmas: characters and case-insensitivity -/

theorem toNat_ofNat_valid {n : Nat} (h : n.isValidChar) : (Char.ofNat n).toNat = n := by
  rw [Char.ofNat, dif_pos h]
  rfl

theorem ascii_char_lower_upper {c : Char} (h : c.toNat < 128) :
    jsCharToLower (jsCharToUpper c) = jsCharToLower c := by
  unfold jsCharToUpper jsCharToLower
  by_cases h1 : c.toNat ≥ 97 ∧ c.toNat ≤ 122
  · rw [if_pos h1]
    have hv : (c.toNat - 32).isValidChar := Or.inl (by omega)
    rw [toNat_ofNat_valid hv]
    rw [if_pos (by omega : c.toNat - 32 ≥ 65 ∧ c.toNat - 32 ≤ 90)]
    rw [if_neg (by omega : ¬(c.toNat ≥ 65 ∧ c.toNat ≤ 90))]
    have h32 : c.toNat - 32 + 32 = c.toNat := by omega
    rw [h32, Char.ofNat_toNat]
  · rw [if_neg h1]
    by_cases h2 : c = 'ı'
    · exfalso
      rw [h2] at h
      exact absurd h (by decide)
    · rw [if_neg h2]

theorem ascii_string_lower_upper {s : String} (h : ∀ c ∈ s.data, c.toNat < 128) :
    jsToLower (jsToUpper s) = jsToLower s := by
  show String.mk ((s.data.map jsCharToUpper).map jsCharToLower) = _
  rw [List.map_map]
  unfold jsToLower
  congr 1
  exact List.map_congr_left (fun c hc => ascii_char_lower_upper (h c hc))

/-! ## Helper lemmas: the admission invariant -/

/-- The admission invariant: at most one active run per (playbook, alert)
pair (spec §5, §8). -/
def AdmissionInv (st : EngineState) : Prop :=
  ∀ pid aid, countActive st pid aid ≤ 1

theorem countActive_updateRun_le (st : EngineState) (rid : Nat)
    (f : ExecutionRun → ExecutionRun) (pid aid : Nat)
    (hf : ∀ r, activePairB pid aid (f r) = true → activePairB pid aid r = true) :
    countActive (updateRun st rid f) pid aid ≤ countActive st pid aid := by
  unfold countActive updateRun
  simp only [List.countP_map]
  apply List.countP_mono_left
  intro r _ h
  simp only [Function.comp_apply] at h
  by_cases hr : r.runId == rid
  · rw [if_pos hr] at h
    exact hf r h
  · rwa [if_neg hr] at h

theorem admissionInv_updateRun (st : EngineState) (rid : Nat)
    (f : ExecutionRun → ExecutionRun)
    (hf : ∀ pid aid r, activePairB pid aid (f r) = true → activePairB pid aid r = true)
    (h : AdmissionInv st) : AdmissionInv (updateRun st rid f) :=
  fun pid aid =>
    Nat.le_trans (countActive_updateRun_le st rid f pid aid (hf pid aid)) (h pid aid)

theorem admissionInv_startRun (st : EngineState) (rid : Nat)
    (h : AdmissionInv st) : AdmissionInv (startRun st rid) := by
  unfold startRun
  apply admissionInv_updateRun _ _ _ _ h
  intro pid aid r hr
  by_cases hs : r.state == RunState.Pending
  · rw [if_pos hs] at hr
    have hs' : r.state = RunState.Pending := by simpa using hs
    simp only [activePairB, RunState.isActive] at hr ⊢
    rw [hs']
    simpa using hr
  · rwa [if_neg hs] at hr

theorem admissionInv_finishRun (st : EngineState) (rid : Nat) (ok : Bool)
    (h : AdmissionInv st) : AdmissionInv (finishRun st rid ok) := by
  unfold finishRun
  apply admissionInv_updateRun _ _ _ _ h
  intro pid aid r hr
  by_cases hs : r.state == RunState.Running
  · rw [if_pos hs] at hr
    cases ok <;> simp [activePairB, RunState.isActive] at hr
  · rwa [if_neg hs] at hr

theorem admissionInv_cancelRunAt (st : EngineState) (rid : Nat)
    (h : AdmissionInv st) : AdmissionInv (cancelRunAt st rid) := by
  unfold cancelRunAt
  apply admissionInv_updateRun _ _ _ _ h
  intro pid aid r hr
  by_cases hs : r.state.isActive
  · rw [if_pos hs] at hr
    simp [activePairB, RunState.isActive] at hr
  · rwa [if_neg hs] at hr

theorem admissionInv_requestRun (st : EngineState) (pid aid : Nat)
    (h : AdmissionInv st) : AdmissionInv (requestRun st pid aid) := by
  unfold requestRun
  by_cases hact : hasActiveRun st pid aid
  · simpa [hact] using h
  · rw [if_neg hact]
    intro pid' aid'
    unfold countActive
    simp only [List.countP_cons]
    by_cases hp : pid' = pid ∧ aid' = aid
    · obtain ⟨rfl, rfl⟩ := hp
      have hzero : (st.runs).countP (activePairB pid' aid') = 0 :=
        countP_eq_zero_of_any_false (Bool.eq_false_iff.mpr hact)
      simp [activePairB, RunState.isActive, hzero]
    · have hnp : activePairB pid' aid'
          { runId := st.nextId, playbookId := pid, alertId := aid,
            state := RunState.Pending, results := [] } = false := by
        have hor : pid ≠ pid' ∨ aid ≠ aid' := by
          rcases Decidable.not_and_iff_or_not.mp hp with hne | hne
          · exact Or.inl (fun hc => hne hc.symm)
          · exact Or.inr (fun hc => hne hc.symm)
        rcases hor with hne | hne <;> simp [activePairB, hne]
      simp only [hnp, if_neg]
      simpa [countActive] using h pid' aid'

theorem admissionInv_reachable {st : EngineState} (h : Reachable st) : AdmissionInv st := by
  induction h with
  | init => intro pid aid; simp [countActive]
  | request pid aid _ ih => exact admissionInv_requestRun _ _ _ ih
  | start rid _ ih => exact admissionInv_startRun _ _ ih
  | finish rid ok _ ih => exact admissionInv_finishRun _ _ _ ih
  | cancel rid _ ih => exact admissionInv_cancelRunAt _ _ ih

/-! ## Helper lemmas: the step loop -/

theorem execSteps_initSeg (exec : Nat → Nat → Outcome) :
    ∀ L : List Step,
      initSeg ((execSteps exec L).1.map StepResult.stepIndex) (L.map Step.index)
  | [] => by
    simp only [execSteps, List.map_nil]
    exact initSeg_nil _
  | s :: rest => by
    simp only [execSteps]
    by_cases h : (attemptsLoop exec s.index 0 s.retryCount).1.isPass
    · simp only [if_pos h, List.map_cons]
      exact initSeg_cons _ (execSteps_initSeg exec rest)
    · simp only [if_neg h, List.map_cons, List.map_nil]
      exact initSeg_cons _ (initSeg_nil _)

theorem execSteps_false_iff (exec : Nat → Nat → Outcome) :
    ∀ L : List Step,
      ((execSteps exec L).2 = false ↔
        ∃ res ∈ (execSteps exec L).1, res.outcome.isPass = false)
  | [] => by simp [execSteps]
  | s :: rest => by
    simp only [execSteps]
    by_cases h : (attemptsLoop exec s.index 0 s.retryCount).1.isPass
    · simp only [if_pos h]
      rw [execSteps_false_iff exec rest]
      constructor
      · rintro ⟨res, hm, hres⟩
        exact ⟨res, List.mem_cons_of_mem _ hm, hres⟩
      · rintro ⟨res, hm, hres⟩
        rcases List.mem_cons.mp hm with rfl | hm
        · rw [h] at hres
          cases hres
        · exact ⟨res, hm, hres⟩
    · simp only [if_neg h]
      constructor
      · intro _
        exact ⟨_, List.mem_singleton_self _, by simpa using h⟩
      · intro _
        trivial

theorem execSteps_take (exec : Nat → Nat → Outcome) :
    ∀ (L : List Step) (j : Nat),
      initSeg ((execSteps exec (L.take j)).1) ((execSteps exec L).1)
  | L, 0 => by
    simp only [List.take_zero, execSteps]
    exact initSeg_nil _
  | [], j => by
    simp only [List.take_nil]
    exact initSeg_refl _
  | s :: rest, j + 1 => by
    simp only [List.take_succ_cons, execSteps]
    by_cases h : (attemptsLoop exec s.index 0 s.retryCount).1.isPass
    · simp only [if_pos h]
      exact initSeg_cons _ (execSteps_take exec rest j)
    · simp only [if_neg h]
      exact initSeg_refl _

/-! ## Helper lemmas: request paths -/

theorem playbooks_path_ne_alerts_path (x y z : String) :
    ("/api/v1/playbooks/" ++ x ++ y) ≠ ("/api/v1/alerts/" ++ z) := by
  intro h
  have hd := congrArg String.data h
  simp only [String.data_append] at hd
  have hlen1 : (("/api/v1/playbooks/" : String).data).length = 18 := by decide
  have e1 : (("/api/v1/playbooks/" : String).data ++ x.data ++ y.data)[8]? = some 'p' := by
    rw [List.getElem?_append_left (by rw [List.length_append, hlen1]; omega)]
    rw [List.getElem?_append_left (by rw [hlen1]; omega)]
    decide
  have hlen2 : (("/api/v1/alerts/" : String).data).length = 15 := by decide
  have e2 : (("/api/v1/alerts/" : String).data ++ z.data)[8]? = some 'a' := by
    rw [List.getElem?_append_left (by rw [hlen2]; omega)]
    decide
  rw [hd, e2] at e1
  exact absurd e1 (by decide)

theorem alerts_path_ne_sub_path (x y : String) (hy : y.length = 9) :
    ("/api/v1/alerts" : String) ≠ "/api/v1/alerts/" ++ x ++ y := by
  intro h
  have hl := congrArg String.length h
  simp only [String.length_append] at hl
  have h1 : ("/api/v1/alerts" : String).length = 14 := by decide
  have h2 : ("/api/v1/alerts/" : String).length = 15 := by decide
  rw [h1, h2, hy] at hl
  omega

/-! ## Claim C4: the Trigger Evaluator is deterministic and side-effect-free -/

/-- C4: for every alert `A` and trigger condition `C`, evaluation is a
deterministic, side-effect-free function: evaluated over any ambient state,
the boolean depends only on `(A, C)` — two evaluations with the same inputs
(in particular, the second run immediately after the first, and runs over
different ambient states) return the same boolean — and the state component
is returned unchanged. -/
theorem c4_evaluate_deterministic_pure {σ : Type} (st st' : σ) (a : Alert)
    (c : TriggerCondition) :
    (evaluateIn st a c).1 = evaluate a c ∧
    (evaluateIn st a c).2 = st ∧
    (evaluateIn st a c).1 = (evaluateIn st' a c).1 ∧
    (evaluateIn ((evaluateIn st a c).2) a c).1 = (evaluateIn st a c).1 :=
  ⟨rfl, rfl, rfl, rfl⟩

/-! ## Claim C6: verbs and paths of the dashboard API client -/

/-- C6: each operation of the API client issues exactly the verb and path
the spec lists, resolved under the base URL `/api/v1`: getAlerts issues
GET /alerts carrying the caller filter params unchanged, createAlert issues
POST /alerts, updateAlert(id) issues PUT /alerts/(id), getStats issues
GET /alerts/statistics, getPlaybooks issues GET /playbooks and
runPlaybook(id) issues POST /playbooks/(id)/execute. -/
theorem c6_api_client_verbs_paths (id : String) (params : List (String × String)) :
    alertService.getAlerts params
      = { method := "GET", path := "/api/v1/alerts", params := params } ∧
    alertService.createAlert
      = { method := "POST", path := "/api/v1/alerts", params := [] } ∧
    alertService.updateAlert id
      = { method := "PUT", path := "/api/v1/alerts/" ++ id, params := [] } ∧
    alertService.getStats
      = { method := "GET", path := "/api/v1/alerts/statistics", params := [] } ∧
    playbookService.getPlaybooks
      = { method := "GET", path := "/api/v1/playbooks", params := [] } ∧
    playbookService.runPlaybook id
      = { method := "POST", path := "/api/v1/playbooks/" ++ id ++ "/execute", params := [] } := by
  refine ⟨?_, by decide, ?_, by decide, by decide, ?_⟩
  · simp [alertService.getAlerts, apiRequest, baseURL]
  · simp only [alertService.updateAlert, apiRequest, baseURL]
    rw [Request.mk.injEq]
    refine ⟨rfl, ?_, rfl⟩
    rw [← String.append_assoc]
    rw [show ("/api/v1" : String) ++ "/alerts/" = "/api/v1/alerts/" by decide]
  · simp only [playbookService.runPlaybook, apiRequest, baseURL]
    rw [Request.mk.injEq]
    refine ⟨rfl, ?_, rfl⟩
    rw [← String.append_assoc, ← String.append_assoc]
    rw [show ("/api/v1" : String) ++ "/playbooks/" = "/api/v1/playbooks/" by decide]

/-! ## Claim C1: at most one active run per (playbook, alert) pair -/

/-- C1: in every reachable engine state, at most one run for a given
(playbook, alert) pair is in an active (Pending or Running) state; a second
trigger request for a pair that already has an active run is coalesced — the
engine state is returned unchanged, so no duplicate run is created — and a
manual execute request is the very same admission operation, subject to the
same rule. -/
theorem c1_at_most_one_active_run (st : EngineState) (pid aid : Nat)
    (h : Reachable st) :
    countActive st pid aid ≤ 1 ∧
    (hasActiveRun st pid aid = true → requestRun st pid aid = st) ∧
    manualExecute st pid aid = requestRun st pid aid := by
  refine ⟨admissionInv_reachable h pid aid, ?_, rfl⟩
  intro hact
  unfold requestRun
  rw [if_pos hact]

/-- Witness: in the engine state reached by a single admission for the pair
(1, 2), the invariant holds, and the duplicate admission for (1, 2) is
coalesced: it returns the state unchanged. -/
theorem c1_at_most_one_active_run_witness :
    countActive (requestRun { runs := [], nextId := 0 } 1 2) 1 2 ≤ 1 ∧
    requestRun (requestRun { runs := [], nextId := 0 } 1 2) 1 2
      = requestRun { runs := [], nextId := 0 } 1 2 :=
  ⟨(c1_at_most_one_active_run (requestRun { runs := [], nextId := 0 } 1 2) 1 2
      (Reachable.request 1 2 Reachable.init)).1,
   (c1_at_most_one_active_run (requestRun { runs := [], nextId := 0 } 1 2) 1 2
      (Reachable.request 1 2 Reachable.init)).2.1 (by decide)⟩

/-! ## Claim C2: run results are an in-order prefix of the step sequence -/

/-- C2: for a playbook whose steps carry the order indices 1..N in ascending
order (spec §3: ordered sequence with fixed, unique order indices), the
StepResult list of a run is at every point an initial segment of the step
sequence in index order (the quantification over `j` gives the state after
any number of processed steps): a result for index i+1 exists only if a
result for index i exists; the run ends Failed exactly when a step exhausted
its retry budget with a non-passing final outcome, and in that case no step
after the halted position has produced a result. -/
theorem c2_results_are_ordered_initseg (exec : Nat → Nat → Outcome)
    (p : Playbook) (r : ExecutionRun)
    (hasc : p.steps.map Step.index = List.range' 1 p.steps.length) :
    initSeg ((executeRun exec p r).results.map StepResult.stepIndex)
      (p.steps.map Step.index) ∧
    (∀ i, 1 ≤ i → (i + 1) ∈ (executeRun exec p r).results.map StepResult.stepIndex →
      i ∈ (executeRun exec p r).results.map StepResult.stepIndex) ∧
    ((executeRun exec p r).state = RunState.Failed ↔
      ∃ res ∈ (executeRun exec p r).results, res.outcome.isPass = false) ∧
    ((executeRun exec p r).state = RunState.Failed →
      ∀ s ∈ p.steps.drop (executeRun exec p r).results.length,
        s.index ∉ (executeRun exec p r).results.map StepResult.stepIndex) ∧
    (∀ j, initSeg ((execSteps exec (p.steps.take j)).1.map StepResult.stepIndex)
      (p.steps.map Step.index)) := by
  have hres : (executeRun exec p r).results = (execSteps exec p.steps).1 := rfl
  have h1 : initSeg ((executeRun exec p r).results.map StepResult.stepIndex)
      (p.steps.map Step.index) := by
    rw [hres]
    exact execSteps_initSeg exec p.steps
  have hRI : (executeRun exec p r).results.map StepResult.stepIndex
      = List.range' 1 (min ((executeRun exec p r).results.map StepResult.stepIndex).length
          p.steps.length) := by
    have h2 := h1
    unfold initSeg at h2
    rw [hasc, take_range_one] at h2
    exact h2.symm
  refine ⟨h1, ?_, ?_, ?_, ?_⟩
  · intro i h1i hmem
    rw [hRI] at hmem ⊢
    rw [List.mem_range'_1] at hmem ⊢
    omega
  · have hiff := execSteps_false_iff exec p.steps
    cases hok : (execSteps exec p.steps).2 with
    | false =>
      rw [hok] at hiff
      constructor
      · intro _
        exact (hiff.mp rfl).imp (fun res hr => hr)
      · intro _
        show (if (execSteps exec p.steps).2 then RunState.Completed else RunState.Failed)
          = RunState.Failed
        rw [hok]
        rfl
    | true =>
      rw [hok] at hiff
      constructor
      · intro hc
        have : (if (execSteps exec p.steps).2 then RunState.Completed else RunState.Failed)
            = RunState.Failed := hc
        rw [hok] at this
        exact absurd this (by decide)
      · intro hex
        exact absurd (hiff.mpr hex) (by decide)
  · intro _ s hs hmem
    have hlen : ((executeRun exec p r).results.map StepResult.stepIndex).length
        = (executeRun exec p r).results.length := List.length_map _ _
    have hup : s.index
        ∈ (p.steps.drop (executeRun exec p r).results.length).map Step.index :=
      List.mem_map_of_mem Step.index hs
    rw [List.map_drop, hasc, drop_range_one] at hup
    rw [hRI] at hmem
    rw [List.mem_range'_1] at hmem hup
    omega
  · intro j
    exact initSeg_trans
      (initSeg_map StepResult.stepIndex (execSteps_take exec p.steps j))
      (by rw [← hres]; exact h1)

/-- Witness: a two-step playbook with indices 1, 2 and an always-succeeding
step oracle satisfies the index-ascension hypothesis, and the resulting run
results are an initial segment of the step sequence. -/
theorem c2_results_are_ordered_initseg_witness :
    initSeg
      ((executeRun (fun _ _ => Outcome.Success)
          { id := 1, enabled := true, trigger := TriggerCondition.sevGte Severity.high,
            steps := [{ index := 1, action := "quarantine-host", retryCount := 0 },
                      { index := 2, action := "notify", retryCount := 0 }] }
          { runId := 0, playbookId := 1, alertId := 9, state := RunState.Pending,
            results := [] }).results.map StepResult.stepIndex)
      ([{ index := 1, action := "quarantine-host", retryCount := 0 },
        { index := 2, action := "notify", retryCount := 0 }].map Step.index) :=
  (c2_results_are_ordered_initseg (fun _ _ => Outcome.Success)
    { id := 1, enabled := true, trigger := TriggerCondition.sevGte Severity.high,
      steps := [{ index := 1, action := "quarantine-host", retryCount := 0 },
                { index := 2, action := "notify", retryCount := 0 }] }
    { runId := 0, playbookId := 1, alertId := 9, state := RunState.Pending, results := [] }
    (by decide)).1

/-! ## Claim C3: cancellation semantics -/

/-- C3: cancelling a run whose state is Pending or Running always yields
state Cancelled, keeps the already-executed results unchanged and appends a
Skipped result for every unexecuted step of the playbook; cancelling a run
already in Completed, Failed or Cancelled state returns the run unchanged —
the operation is total, a no-op rather than an error. -/
theorem c3_cancel_semantics (p : Playbook) (r : ExecutionRun) :
    ((r.state = RunState.Pending ∨ r.state = RunState.Running) →
      (cancelRun p r).state = RunState.Cancelled ∧
      (cancelRun p r).results.take r.results.length = r.results ∧
      (cancelRun p r).results.map StepResult.stepIndex
        = r.results.map StepResult.stepIndex
          ++ (p.steps.drop r.results.length).map Step.index ∧
      (∀ res ∈ (cancelRun p r).results.drop r.results.length,
        res.outcome = Outcome.Skipped)) ∧
    ((r.state = RunState.Completed ∨ r.state = RunState.Failed ∨
        r.state = RunState.Cancelled) →
      cancelRun p r = r) := by
  constructor
  · intro hact
    have hc : cancelRun p r =
        { r with
          state := RunState.Cancelled,
          results := r.results ++ (p.steps.drop r.results.length).map
            (fun s => { stepIndex := s.index, outcome := Outcome.Skipped,
                        attempts := 0 }) } := by
      unfold cancelRun
      rw [if_pos hact]
    rw [hc]
    refine ⟨rfl, List.take_left _ _, ?_, ?_⟩
    · show (r.results ++ _).map StepResult.stepIndex = _
      rw [List.map_append, List.map_map]
      rfl
    · show ∀ res ∈ (r.results ++ _).drop r.results.length, _
      rw [List.drop_left]
      intro res hres
      rcases List.mem_map.mp hres with ⟨s, _, rfl⟩
      rfl
  · intro hterm
    have hne : ¬(r.state = RunState.Pending ∨ r.state = RunState.Running) := by
      rcases hterm with h | h | h <;> rw [h] <;> decide
    unfold cancelRun
    rw [if_neg hne]

/-- Witness: cancelling a Running run with one executed step of a two-step
playbook yields Cancelled, keeps the executed result and skips the rest;
cancelling a Completed run returns it unchanged. -/
theorem c3_cancel_semantics_witness :
    (cancelRun
      { id := 1, enabled := true, trigger := TriggerCondition.sevGte Severity.high,
        steps := [{ index := 1, action := "quarantine-host", retryCount := 0 },
                  { index := 2, action := "notify", retryCount := 0 }] }
      { runId := 0, playbookId := 1, alertId := 9, state := RunState.Running,
        results := [{ stepIndex := 1, outcome := Outcome.Success, attempts := 1 }] }).state
      = RunState.Cancelled ∧
    cancelRun
      { id := 1, enabled := true, trigger := TriggerCondition.sevGte Severity.high,
        steps := [{ index := 1, action := "quarantine-host", retryCount := 0 },
                  { index := 2, action := "notify", retryCount := 0 }] }
      { runId := 3, playbookId := 1, alertId := 9, state := RunState.Completed,
        results := [] }
      = { runId := 3, playbookId := 1, alertId := 9, state := RunState.Completed,
          results := [] } :=
  ⟨((c3_cancel_semantics
      { id := 1, enabled := true, trigger := TriggerCondition.sevGte Severity.high,
        steps := [{ index := 1, action := "quarantine-host", retryCount := 0 },
                  { index := 2, action := "notify", retryCount := 0 }] }
      { runId := 0, playbookId := 1, alertId := 9, state := RunState.Running,
        results := [{ stepIndex := 1, outcome := Outcome.Success, attempts := 1 }] }).1
      (Or.inr rfl)).1,
   (c3_cancel_semantics
      { id := 1, enabled := true, trigger := TriggerCondition.sevGte Severity.high,
        steps := [{ index := 1, action := "quarantine-host", retryCount := 0 },
                  { index := 2, action := "notify", retryCount := 0 }] }
      { runId := 3, playbookId := 1, alertId := 9, state := RunState.Completed,
        results := [] }).2 (Or.inl rfl)⟩

/-! ## Claim C5: the active-incident count of a StatSnapshot -/

/-- C5 (amended): in every StatSnapshot the Statistics Aggregator derives
from the Alert set — the snapshot GET /alerts/statistics serves — the
active-incident count equals the number of alerts whose status is not
resolved, which equals total_alerts minus the resolved count.  (The
hard-coded offline fallback snapshot of the Dashboard does not satisfy this
equation; see the counterexample.) -/
theorem c5_active_incidents_from_alert_set (alerts : List Alert) :
    (computeStats alerts).active_incidents
      = alerts.countP (fun a => !(decide (a.status = AlertStatus.resolved))) ∧
    (computeStats alerts).active_incidents
      = (computeStats alerts).total_alerts - (computeStats alerts).by_status.resolved := by
  refine ⟨rfl, ?_⟩
  show alerts.countP (fun a => !(decide (a.status = AlertStatus.resolved)))
    = alerts.length - alerts.countP (fun a => decide (a.status = AlertStatus.resolved))
  have h := length_countP_split (fun a => decide (a.status = AlertStatus.resolved)) alerts
  omega

/-- C5 counterexample: the snapshot the Dashboard renders after a failed
fetch — the hard-coded fallback of Dashboard.jsx lines 42-47 — violates the
claimed equation: its active-incident count is 3, while total_alerts minus
the resolved count is 124 - 67 = 57. -/
theorem c5_dashboard_fallback_counterexample :
    (fetchStats (Except.error "backend offline")).stats = some fallbackStats ∧
    fallbackStats.active_incidents = some 3 ∧
    fallbackStats.total_alerts = some 124 ∧
    fallbackStats.by_status.bind StatusCountsResp.resolved = some 67 ∧
    displayedActive (fetchStats (Except.error "backend offline")).stats
      ≠ displayedTotal (fetchStats (Except.error "backend offline")).stats
        - displayedResolved (fetchStats (Except.error "backend offline")).stats := by
  refine ⟨rfl, rfl, rfl, rfl, ?_⟩
  decide

/-! ## Claim C8: failed requests render hard-coded fallback data -/

/-- C8: for every failed backend request the page handlers catch the error
and install hard-coded fallback data instead of surfacing it: the Alerts
page installs exactly the three fixed mock alerts and the Dashboard installs
the fixed snapshot with 124 total alerts and 3 active incidents; in both
branches (success and error) the loading flag ends cleared.  Both handlers
are total functions of the response, which is the embedded form of "no
exception escapes the fetch handler". -/
theorem c8_error_fallback (e : String) :
    fetchAlerts (Except.error e) = { alerts := mockAlerts, loading := false } ∧
    mockAlerts.length = 3 ∧
    (fetchAlerts (Except.error e)).alerts.map AlertRow.title
      = ["Suspicious Login Attempt", "Port Scan Detected", "Malware Signature Match"] ∧
    fetchStats (Except.error e) = { stats := some fallbackStats, loading := false } ∧
    fallbackStats.total_alerts = some 124 ∧
    fallbackStats.active_incidents = some 3 ∧
    (∀ resp : AlertsResponse, (fetchAlerts (Except.ok resp)).loading = false) ∧
    (∀ resp : StatsResp, (fetchStats (Except.ok resp)).loading = false) :=
  ⟨rfl, rfl, rfl, rfl, rfl, rfl, fun _ => rfl, fun _ => rfl⟩

/-! ## Claim C9: severity colour classes -/

/-- C9 counterexample: at the concrete input "hıgh" (second letter U+0131,
dotless i) the claimed equation fails on the source function: toLowerCase
leaves the string as "hıgh", which matches no case, so getSeverityColor
yields the blue default — while toUpperCase maps U+0131 to the capital
letter I, giving "HIGH", whose colour is the orange high class. -/
theorem c9_case_insensitivity_counterexample :
    jsToUpper "hıgh" = "HIGH" ∧
    getSeverityColor "hıgh" = "text-blue-400 bg-blue-400/10 border-blue-400/20" ∧
    getSeverityColor (jsToUpper "hıgh")
      = "text-orange-400 bg-orange-400/10 border-orange-400/20" ∧
    getSeverityColor "hıgh" ≠ getSeverityColor (jsToUpper "hıgh") := by
  refine ⟨by decide, by decide, by decide, by decide⟩

/-- C9 (amended): `getSeverityColor` matches critical, high and medium
case-insensitively (via `toLowerCase`) to three pairwise distinct class
strings and maps every other value — including "low" and any unknown
severity — to the one shared blue default class; the equation
`getSeverityColor s = getSeverityColor (toUpperCase s)` holds for every
string of ASCII characters, but not for every string: it fails on strings
with non-ASCII case mappings such as "hıgh" (see the counterexample).
The JavaScript original presupposes a non-null string argument, since
`toLowerCase` is called unconditionally; the embedding is total over
`String`. -/
theorem c9_severity_color (s : String) :
    (jsToLower s = "critical" →
      getSeverityColor s = "text-danger bg-danger/10 border-danger/20") ∧
    (jsToLower s = "high" →
      getSeverityColor s = "text-orange-400 bg-orange-400/10 border-orange-400/20") ∧
    (jsToLower s = "medium" →
      getSeverityColor s = "text-warning bg-warning/10 border-warning/20") ∧
    (jsToLower s ≠ "critical" → jsToLower s ≠ "high" → jsToLower s ≠ "medium" →
      getSeverityColor s = "text-blue-400 bg-blue-400/10 border-blue-400/20") ∧
    ((∀ c ∈ s.data, c.toNat < 128) →
      getSeverityColor s = getSeverityColor (jsToUpper s)) ∧
    getSeverityColor "low" = "text-blue-400 bg-blue-400/10 border-blue-400/20" ∧
    ("text-danger bg-danger/10 border-danger/20"
        ≠ "text-orange-400 bg-orange-400/10 border-orange-400/20" ∧
      "text-danger bg-danger/10 border-danger/20"
        ≠ "text-warning bg-warning/10 border-warning/20" ∧
      "text-orange-400 bg-orange-400/10 border-orange-400/20"
        ≠ "text-warning bg-warning/10 border-warning/20") := by
  refine ⟨?_, ?_, ?_, ?_, ?_, ?_, by decide, by decide, by decide⟩
  · intro h
    simp [getSeverityColor, h]
  · intro h
    simp [getSeverityColor, h]
  · intro h
    simp [getSeverityColor, h]
  · intro h1 h2 h3
    simp [getSeverityColor, h1, h2, h3]
  · intro h
    unfold getSeverityColor
    rw [ascii_string_lower_upper h]
  · have hlow : jsToLower "low" = "low" := by decide
    simp [getSeverityColor, hlow]

/-- Witness: the ASCII string "HIGH" is matched case-insensitively to the
orange class, and on the ASCII string "low" the upper-casing equation
holds. -/
theorem c9_severity_color_witness :
    getSeverityColor "HIGH" = "text-orange-400 bg-orange-400/10 border-orange-400/20" ∧
    getSeverityColor "low" = getSeverityColor (jsToUpper "low") :=
  ⟨(c9_severity_color "HIGH").2.1 (by decide),
   (c9_severity_color "low").2.2.2.2.1 (by decide)⟩

/-! ## Claim C7: endpoints the API client does not cover -/

/-- C7 counterexample: no operation of the API client (enumerated by
`clientRequests`, here at id "7" with no filter params) issues
POST /api/v1/alerts/7/escalate or POST /api/v1/alerts/bulk-update — the
client has no escalate call and no bulk-update call, contradicting the
claim that it provides a call for every endpoint of the REST surface. -/
theorem c7_counterexample_no_escalate_bulk :
    ((clientRequests "7" []).all (fun r =>
      !(r.method == "POST" &&
        (r.path == "/api/v1/alerts/7/escalate" ||
         r.path == "/api/v1/alerts/bulk-update")))) = true := by
  decide

/-- C7 (amended): the API client covers only part of the REST surface the
spec lists: its POST operations are exactly createAlert (POST /alerts) and
runPlaybook (POST /playbooks/(id)/execute), and for every id no operation
issues POST /alerts/(id)/escalate or POST /alerts/bulk-update; the escalate
and bulk-update endpoints have no corresponding client call. -/
theorem c7_client_surface_without_escalate_bulk (id eid : String)
    (params : List (String × String)) :
    ((clientRequests id params).filter (fun r => r.method == "POST")).map Request.path
      = ["/api/v1/alerts", "/api/v1/playbooks/" ++ id ++ "/execute"] ∧
    (∀ r ∈ clientRequests id params, r.method = "POST" →
      r.path ≠ "/api/v1/alerts/" ++ eid ++ "/escalate") ∧
    (∀ r ∈ clientRequests id params, r.method = "POST" →
      r.path ≠ "/api/v1/alerts/bulk-update") := by
  have hjoin : ("/api/v1" : String) ++ ("/playbooks/" ++ id ++ "/execute")
      = "/api/v1/playbooks/" ++ id ++ "/execute" := by
    rw [← String.append_assoc, ← String.append_assoc]
    rw [show ("/api/v1" : String) ++ "/playbooks/" = "/api/v1/playbooks/" by decide]
  have hcreate : ("/api/v1" : String) ++ "/alerts" = "/api/v1/alerts" := by decide
  have hesc : ∀ z : String, ("/api/v1" : String) ++ ("/playbooks/" ++ id ++ "/execute")
      ≠ "/api/v1/alerts/" ++ z ++ "/escalate" := by
    intro z
    rw [hjoin, String.append_assoc ("/api/v1/alerts/" : String) z "/escalate"]
    exact playbooks_path_ne_alerts_path id "/execute" (z ++ "/escalate")
  have hbulk : ("/api/v1" : String) ++ ("/playbooks/" ++ id ++ "/execute")
      ≠ "/api/v1/alerts/bulk-update" := by
    rw [hjoin, show ("/api/v1/alerts/bulk-update" : String)
      = "/api/v1/alerts/" ++ "bulk-update" by decide]
    exact playbooks_path_ne_alerts_path id "/execute" "bulk-update"
  refine ⟨?_, ?_, ?_⟩
  · simp only [clientRequests, alertService.getStats, alertService.getAlerts,
      alertService.getAlert, alertService.createAlert, alertService.updateAlert,
      playbookService.getPlaybooks, playbookService.getPlaybook,
      playbookService.runPlaybook, apiRequest, baseURL]
    simp [List.filter, hcreate, hjoin]
  · intro r hr hpost
    simp only [clientRequests, List.mem_cons, List.mem_singleton] at hr
    rcases hr with rfl | rfl | rfl | rfl | rfl | rfl | rfl | rfl | h0 <;>
      first
      | (cases h0)
      | (exact absurd hpost (by simp [alertService.getStats, alertService.getAlerts,
          alertService.getAlert, alertService.updateAlert,
          playbookService.getPlaybooks, playbookService.getPlaybook, apiRequest]))
      | (show Request.path _ ≠ _
         simp only [alertService.createAlert, playbookService.runPlaybook,
           apiRequest, baseURL]
         first
         | (rw [hcreate]
            exact alerts_path_ne_sub_path eid "/escalate" (by decide))
         | exact hesc eid)
  · intro r hr hpost
    simp only [clientRequests, List.mem_cons, List.mem_singleton] at hr
    rcases hr with rfl | rfl | rfl | rfl | rfl | rfl | rfl | rfl | h0 <;>
      first
      | (cases h0)
      | (exact absurd hpost (by simp [alertService.getStats, alertService.getAlerts,
          alertService.getAlert, alertService.updateAlert,
          playbookService.getPlaybooks, playbookService.getPlaybook, apiRequest]))
      | (show Request.path _ ≠ _
         simp only [alertService.createAlert, playbookService.runPlaybook,
           apiRequest, baseURL]
         first
         | (rw [hcreate]
            decide)
         | exact hbulk)

/-- Witness: at id "7" the POST operations of the client are exactly
createAlert and runPlaybook, and createAlert does not issue the escalate
endpoint path. -/
theorem c7_client_surface_without_escalate_bulk_witness :
    ((clientRequests "7" []).filter (fun r => r.method == "POST")).map Request.path
      = ["/api/v1/alerts", "/api/v1/playbooks/" ++ "7" ++ "/execute"] ∧
    alertService.createAlert.path ≠ "/api/v1/alerts/" ++ "7" ++ "/escalate" :=
  ⟨(c7_client_surface_without_escalate_bulk "7" "7" []).1,
   (c7_client_surface_without_escalate_bulk "7" "7" []).2.1 alertService.createAlert
     (List.mem_cons_of_mem _ (List.mem_cons_of_mem _ (List.mem_cons_of_mem _
       (List.mem_cons_self _ _)))) rfl⟩

/-! ## Claim C10: missing response fields render as empty defaults -/

/-- C10: when a successful response omits an expected field, rendering still
succeeds with an empty default: a GET /alerts body without an alerts array
yields an empty table, a GET /playbooks body without a playbooks array
yields an empty grid (whatever the previous page state was), and every
missing statistics counter renders as 0 through the optional chaining and
`|| 0` fallbacks — whether the containing object or the leaf counter is the
missing piece, or the stats state is absent altogether. -/
theorem c10_missing_field_defaults :
    (∀ resp : AlertsResponse, resp.alerts = none →
      fetchAlerts (Except.ok resp) = { alerts := [], loading := false }) ∧
    (∀ (initial : List PlaybookRow) (resp : PlaybooksResponse), resp.playbooks = none →
      fetchPlaybooks initial (Except.ok resp)
        = { playbooks := [], loading := false }) ∧
    (∀ r : StatsResp, r.total_alerts = none → displayedTotal (some r) = 0) ∧
    (∀ r : StatsResp, r.by_severity = none → displayedCritical (some r) = 0) ∧
    (∀ (r : StatsResp) (c : SeverityCountsResp), r.by_severity = some c →
      c.critical = none → displayedCritical (some r) = 0) ∧
    (∀ r : StatsResp, r.active_incidents = none → displayedActive (some r) = 0) ∧
    (∀ r : StatsResp, r.by_status = none → displayedResolved (some r) = 0) ∧
    (∀ (r : StatsResp) (c : StatusCountsResp), r.by_status = some c →
      c.resolved = none → displayedResolved (some r) = 0) ∧
    displayedTotal none = 0 ∧ displayedCritical none = 0 ∧
    displayedActive none = 0 ∧ displayedResolved none = 0 := by
  refine ⟨?_, ?_, ?_, ?_, ?_, ?_, ?_, ?_, rfl, rfl, rfl, rfl⟩
  · intro resp h
    simp [fetchAlerts, h]
  · intro initial resp h
    simp [fetchPlaybooks, h]
  · intro r h
    simp [displayedTotal, orZero, h]
  · intro r h
    simp [displayedCritical, orZero, h]
  · intro r c hr hc
    simp [displayedCritical, orZero, hr, hc]
  · intro r h
    simp [displayedActive, orZero, h]
  · intro r h
    simp [displayedResolved, orZero, h]
  · intro r c hr hc
    simp [displayedResolved, orZero, hr, hc]

/-- Witness: a response with no alerts array yields the empty table state,
and a stats body whose by_severity object lacks the critical counter renders
the Critical Threats card as 0. -/
theorem c10_missing_field_defaults_witness :
    fetchAlerts (Except.ok { alerts := none }) = { alerts := [], loading := false } ∧
    displayedCritical (some
      { total_alerts := some 5,
        by_severity := some { critical := none, high := some 1, medium := none, low := none },
        by_status := none, active_incidents := none }) = 0 :=
  ⟨c10_missing_field_defaults.1 { alerts := none } rfl,
   c10_missing_field_defaults.2.2.2.2.1
     { total_alerts := some 5,
       by_severity := some { critical := none, high := some 1, medium := none, low := none },
       by_status := none, active_incidents := none }
     { critical := none, high := some 1, medium := none, low := none } rfl rfl⟩
